import Mathlib

/-!
Verification development for the rustCacheDb repository (src/lib.rs).

The Rust source is shallowly embedded: bytes are `Nat` values below 256,
byte buffers are `List Nat`, machine-integer conversions are explicit
arithmetic, fallible operations return `Except CacheDbError`, and the
in-place mutations of the Rust code (`&mut` state, buffers and
out-parameters) become explicit state passing.  Keys and values, generic
over the `GenericKeyVal` trait in the source, are embedded generically
over a codec record; concrete statements instantiate it with the opaque
byte-string codec `bytesKV`, which mirrors the shape of the repository's
`impl GenericKeyVal<String> for String` (declared size = element count,
encode = the raw bytes, decode total).
-/

set_option maxRecDepth 400000

namespace RustCacheDb

/-- Error enum `CacheDbError` (src/lib.rs lines 18-26). -/
inductive CacheDbError where
  | KeyNotFound
  | ParsingErr
  | DecodingErr
  | ProtocolSizeBufferOverflow
  | NetworkError
  | NetworkTimeOutError
  deriving DecidableEq

/-- Opcode enum `ProtOpCode` (src/lib.rs lines 28-35); wire values are given
by `prot_op_code_to_u8`. -/
inductive ProtOpCode where
  | PullOp
  | PushOp
  | PullReplyOp
  | PullReplyNotFoundOp
  | TerminateConn
  deriving DecidableEq

/-- `KeyValObj` (src/lib.rs lines 37-41). -/
structure KeyValObj (K V : Type) where
  key : K
  val : V
  deriving DecidableEq

/-- The `GenericKeyVal` trait (src/lib.rs lines 82-86) as a record of the
three codec operations.  Sizes are `Nat` standing for `u16` (a value
returned by `get_size` is below 2 ^ 16; the concrete instance below
enforces this the way the repository's `String` instance does). -/
structure GenericKeyVal (α : Type) where
  get_size : α → Except CacheDbError Nat
  get_bytes : α → List Nat
  from_bytes : List Nat → Except CacheDbError α

/-- `CacheProtocol::prot_op_code_to_u8` (src/lib.rs lines 89-97);
`u8::from_le` is the identity on `u8`. -/
def prot_op_code_to_u8 : ProtOpCode → Nat
  | .PullOp => 1
  | .PushOp => 2
  | .PullReplyOp => 3
  | .PullReplyNotFoundOp => 4
  | .TerminateConn => 5

/-- `CacheProtocol::u8_to_prot_op_code` (src/lib.rs lines 98-107);
`u8::from_be` is the identity on `u8`. -/
def u8_to_prot_op_code (b : Nat) : Option ProtOpCode :=
  if b = 1 then some .PullOp
  else if b = 2 then some .PushOp
  else if b = 3 then some .PullReplyOp
  else if b = 4 then some .PullReplyNotFoundOp
  else if b = 5 then some .TerminateConn
  else none

/-- `u16::to_be_bytes` on a `Nat` standing for a `u16`. -/
def u16_to_be_bytes (n : Nat) : List Nat := [n / 256 % 256, n % 256]

/-- `u16::from_be_bytes` of two bytes. -/
def u16_from_be_bytes (hi lo : Nat) : Nat := 256 * hi + lo

/-- The opaque byte-string codec: the concrete instantiation used for the
theorems below (spec section 9 explicitly allows keys and values to be
opaque byte strings).  Structurally it mirrors the repository's
`impl GenericKeyVal<String> for String` (src/lib.rs lines 577-602):
`get_size` is the element count guarded by the `u16` conversion,
`get_bytes` yields the raw bytes, `from_bytes` succeeds on raw bytes. -/
def bytesKV : GenericKeyVal (List Nat) where
  get_size := fun bs =>
    if bs.length ≤ 65535 then .ok bs.length
    else .error .ProtocolSizeBufferOverflow
  get_bytes := fun bs => bs
  from_bytes := fun bs => .ok bs

variable {K V : Type}

/-- `CacheProtocol::assemble_buff` (src/lib.rs lines 109-128).  The value
size field and the value bytes are suppressed (two zero bytes, no payload)
exactly when the opcode is `PullOp`; every other opcode serialises the
supplied value. -/
def assemble_buff (ck : GenericKeyVal K) (cv : GenericKeyVal V)
    (op_code : ProtOpCode) (obj : KeyValObj K V) :
    Except CacheDbError (List Nat) :=
  match ck.get_size obj.key with
  | .error e => .error e
  | .ok key_size =>
    let head := prot_op_code_to_u8 op_code ::
      (u16_to_be_bytes key_size ++ ck.get_bytes obj.key)
    if op_code = ProtOpCode.PullOp then
      .ok (head ++ [0, 0])
    else
      match cv.get_size obj.val with
      | .error e => .error e
      | .ok val_size =>
        .ok (head ++ u16_to_be_bytes val_size ++ cv.get_bytes obj.val)

/-- Parser state `CacheProtocol` (src/lib.rs lines 60-71); the phantom type
markers carry no data and are dropped. -/
structure CacheProtocol where
  parsed_protocoll_segment : Nat
  parsed_bytes_total : Nat
  to_parse_bytes_total : Nat
  key_size : Nat
  val_size : Nat
  deriving DecidableEq

/-- `CacheProtocol::new` (src/lib.rs lines 130-140). -/
def CacheProtocol.new : CacheProtocol :=
  { parsed_protocoll_segment := 0, parsed_bytes_total := 0,
    to_parse_bytes_total := 0, key_size := 0, val_size := 0 }

/-- Result of one call to `parse_buff`.  The Rust function mutates the
parser state, the buffer (in the carry branch), the opcode and the
key/value out-parameter in place and returns `Result<(bool, usize)>`;
here each outcome carries the updated values.  `emitted` is
`Ok((true, 0))`, `stalled` is `Ok((false, left_over))`, `errored` is
`Err(e)`, and `panicked` marks an execution on which the Rust code
aborts (slice-index panic, `copy_from_slice` length-mismatch panic, or
debug-mode `usize` subtraction overflow). -/
inductive ParseResult (K V : Type) where
  | emitted (st : CacheProtocol) (buff : List Nat) (op : ProtOpCode)
      (obj : KeyValObj K V)
  | stalled (st : CacheProtocol) (buff : List Nat) (op : ProtOpCode)
      (obj : KeyValObj K V) (left_over : Nat)
  | panicked
  | errored (e : CacheDbError)
  deriving DecidableEq

/-- The `_` arm of the `match` in `parse_buff` (src/lib.rs lines 205-218):
compute the number of not-yet-consumed bytes and move them to the start
of the buffer.  The Rust source builds the carry from
`&buff[(tcp_read_size - left_over_size)..]`, i.e. from the consumed
position to the END of the 1024-byte array, and then
`copy_from_slice`s it onto `buff[..left_over_size]`: the two slices have
equal length only when `tcp_read_size` equals the array length, and any
other combination with `left_over_size > 0` panics. -/
def stall_arm (st : CacheProtocol) (buff : List Nat) (tcp_read_size : Nat)
    (op : ProtOpCode) (obj : KeyValObj K V) : ParseResult K V :=
  if st.parsed_bytes_total ≤ tcp_read_size then
    let left_over := tcp_read_size - st.parsed_bytes_total
    if left_over = 0 then .stalled st buff op obj 0
    else
      if st.parsed_bytes_total ≤ buff.length ∧
          buff.length - st.parsed_bytes_total = left_over then
        .stalled st (buff.drop st.parsed_bytes_total ++ buff.drop left_over)
          op obj left_over
      else .panicked
  else .panicked

/-- The `loop` of `CacheProtocol::parse_buff` (src/lib.rs lines 144-221),
written with explicit fuel (each iteration either returns or advances
`parsed_protocoll_segment`, so fuel 6 can never be exhausted from a
reachable state; exhaustion is mapped to `panicked`).  Each arm mirrors
the corresponding `match` arm of the source, including the guard
`tcp_read_size >= ...`, the slice-bound checks, and the two-byte
`copy_from_slice` length requirement for the size fields. -/
def parse_loop (ck : GenericKeyVal K) (cv : GenericKeyVal V) :
    Nat → CacheProtocol → List Nat → Nat → ProtOpCode → KeyValObj K V →
    ParseResult K V
  | 0, _, _, _, _, _ => .panicked
  | fuel + 1, st, buff, tcp_read_size, op, obj =>
    if st.parsed_protocoll_segment = 0 then
      if st.parsed_bytes_total + 1 ≤ tcp_read_size then
        let tp := st.to_parse_bytes_total + 1
        if st.parsed_bytes_total < buff.length then
          match u8_to_prot_op_code (buff.getD st.parsed_bytes_total 0) with
          | some op_code_en =>
            parse_loop ck cv fuel
              { parsed_protocoll_segment := 1, parsed_bytes_total := tp,
                to_parse_bytes_total := tp + 2, key_size := st.key_size,
                val_size := st.val_size }
              buff tcp_read_size op_code_en obj
          | none => .errored .ParsingErr
        else .panicked
      else stall_arm st buff tcp_read_size op obj
    else if st.parsed_protocoll_segment = 1 then
      if st.to_parse_bytes_total ≤ tcp_read_size then
        if st.parsed_bytes_total ≤ st.to_parse_bytes_total ∧
            st.to_parse_bytes_total ≤ buff.length ∧
            st.to_parse_bytes_total - st.parsed_bytes_total = 2 then
          let ks := u16_from_be_bytes (buff.getD st.parsed_bytes_total 0)
            (buff.getD (st.parsed_bytes_total + 1) 0)
          parse_loop ck cv fuel
            { parsed_protocoll_segment := 2,
              parsed_bytes_total := st.to_parse_bytes_total,
              to_parse_bytes_total := st.to_parse_bytes_total + ks,
              key_size := ks, val_size := st.val_size }
            buff tcp_read_size op obj
        else .panicked
      else stall_arm st buff tcp_read_size op obj
    else if st.parsed_protocoll_segment = 2 then
      if st.to_parse_bytes_total ≤ tcp_read_size then
        if st.parsed_bytes_total ≤ st.to_parse_bytes_total ∧
            st.to_parse_bytes_total ≤ buff.length then
          let next : KeyValObj K V → ParseResult K V := fun obj2 =>
            parse_loop ck cv fuel
              { parsed_protocoll_segment := 3,
                parsed_bytes_total := st.to_parse_bytes_total,
                to_parse_bytes_total := st.to_parse_bytes_total + 2,
                key_size := st.key_size, val_size := st.val_size }
              buff tcp_read_size op obj2
          if st.key_size ≠ 0 then
            match ck.from_bytes ((buff.drop st.parsed_bytes_total).take
                (st.to_parse_bytes_total - st.parsed_bytes_total)) with
            | .error e => .errored e
            | .ok k => next { key := k, val := obj.val }
          else next obj
        else .panicked
      else stall_arm st buff tcp_read_size op obj
    else if st.parsed_protocoll_segment = 3 then
      if st.to_parse_bytes_total ≤ tcp_read_size then
        if st.parsed_bytes_total ≤ st.to_parse_bytes_total ∧
            st.to_parse_bytes_total ≤ buff.length ∧
            st.to_parse_bytes_total - st.parsed_bytes_total = 2 then
          let vs := u16_from_be_bytes (buff.getD st.parsed_bytes_total 0)
            (buff.getD (st.parsed_bytes_total + 1) 0)
          parse_loop ck cv fuel
            { parsed_protocoll_segment := 4,
              parsed_bytes_total := st.to_parse_bytes_total,
              to_parse_bytes_total := st.to_parse_bytes_total + vs,
              key_size := st.key_size, val_size := vs }
            buff tcp_read_size op obj
        else .panicked
      else stall_arm st buff tcp_read_size op obj
    else if st.parsed_protocoll_segment = 4 then
      if st.to_parse_bytes_total ≤ tcp_read_size then
        if st.parsed_bytes_total ≤ st.to_parse_bytes_total ∧
            st.to_parse_bytes_total ≤ buff.length then
          let done : KeyValObj K V → ParseResult K V := fun obj2 =>
            .emitted
              { parsed_protocoll_segment := 0,
                parsed_bytes_total := st.to_parse_bytes_total,
                to_parse_bytes_total := st.to_parse_bytes_total,
                key_size := st.key_size, val_size := st.val_size }
              buff op obj2
          if st.val_size ≠ 0 then
            match cv.from_bytes ((buff.drop st.parsed_bytes_total).take
                (st.to_parse_bytes_total - st.parsed_bytes_total)) with
            | .error e => .errored e
            | .ok v => done { key := obj.key, val := v }
          else done obj
        else .panicked
      else stall_arm st buff tcp_read_size op obj
    else stall_arm st buff tcp_read_size op obj

/-- `CacheProtocol::parse_buff` (src/lib.rs lines 144-221). -/
def parse_buff (ck : GenericKeyVal K) (cv : GenericKeyVal V)
    (st : CacheProtocol) (buff : List Nat) (tcp_read_size : Nat)
    (op : ProtOpCode) (obj : KeyValObj K V) : ParseResult K V :=
  parse_loop ck cv 6 st buff tcp_read_size op obj

/-- `TCP_READ_BUFF_SIZE` (src/lib.rs line 13). -/
def TCP_READ_BUFF_SIZE : Nat := 1024

/-- The per-connection mutable state of the read loops
(`CacheClient::cache_client_handler`, src/lib.rs lines 337-420, and
`CacheDb::client_handler`, lines 458-550): the parser, the fixed
1024-byte buffer, the `parsed_op_code` / `parsed_obj` out-parameters and
`buff_left_over_size`. -/
structure ConnState (K V : Type) where
  parser : CacheProtocol
  buff : List Nat
  op : ProtOpCode
  obj : KeyValObj K V
  left_over : Nat
  deriving DecidableEq

/-- The initial per-connection state (src/lib.rs lines 340-349 and
459-468): zeroed buffer, fresh parser, `parsed_op_code = PullOp`,
`parsed_obj` from `Default`. -/
def ConnState.init (dk : K) (dv : V) : ConnState K V :=
  { parser := CacheProtocol.new, buff := List.replicate TCP_READ_BUFF_SIZE 0,
    op := ProtOpCode.PullOp, obj := { key := dk, val := dv }, left_over := 0 }

/-- Terminal status of a run of the connection read loop. `running` means
the reads supplied so far were consumed without leaving the loop. -/
inductive RunOutcome where
  | running
  | terminated
  | fatal (e : CacheDbError)
  | panicked
  deriving DecidableEq

/-- Result of the inner `loop` over `parse_buff` (src/lib.rs lines
381-416 / 494-547): either the parser stalled (the outer loop continues
with the recorded left-over), or the loop ended (TERMINATE, a parse
error, or a panic).  Emitted frames are accumulated. -/
inductive InnerResult (K V : Type) where
  | more (parser : CacheProtocol) (buff : List Nat) (op : ProtOpCode)
      (obj : KeyValObj K V) (left_over : Nat)
      (frames : List (ProtOpCode × KeyValObj K V))
  | halt (outcome : RunOutcome) (frames : List (ProtOpCode × KeyValObj K V))
  deriving DecidableEq

/-- The inner frame loop shared by both handlers, with the per-frame
dispatch abstracted to recording the emitted `(opcode, obj)` pair:
`TerminateConn` leaves the outer loop in both handlers (src/lib.rs lines
391-393 and 504-506); any other emitted frame lets the loop call
`parse_buff` again; a stall hands the left-over back to the outer loop;
a parse error is fatal to the connection (`?` at line 382, `unwrap` at
line 495).  Since every frame consumes at least five buffer bytes, fuel
`tcp_read_size + 1` can never be exhausted. -/
def inner_loop (ck : GenericKeyVal K) (cv : GenericKeyVal V) :
    Nat → CacheProtocol → List Nat → Nat → ProtOpCode → KeyValObj K V →
    List (ProtOpCode × KeyValObj K V) → InnerResult K V
  | 0, _, _, _, _, _, frames => .halt .panicked frames
  | fuel + 1, parser, buff, tcp_read_size, op, obj, frames =>
    match parse_buff ck cv parser buff tcp_read_size op obj with
    | .stalled st b o ob lo => .more st b o ob lo frames
    | .errored e => .halt (.fatal e) frames
    | .panicked => .halt .panicked frames
    | .emitted st b o ob =>
      if o = ProtOpCode.TerminateConn then .halt .terminated frames
      else inner_loop ck cv fuel st b tcp_read_size o ob (frames ++ [(o, ob)])

/-- The rebasing of the parser cursors done at the top of each outer read
iteration (src/lib.rs lines 370-379 / 483-492): if there is no left-over
and no frame is mid-parse, reset both cursors; otherwise make
`to_parse_bytes_total` relative and zero `parsed_bytes_total`. -/
def rebase_cursors (st : ConnState K V) : CacheProtocol :=
  if st.left_over = 0 ∧ st.parser.parsed_protocoll_segment = 0 then
    { st.parser with parsed_bytes_total := 0, to_parse_bytes_total := 0 }
  else
    { st.parser with
      to_parse_bytes_total :=
        st.parser.to_parse_bytes_total - st.parser.parsed_bytes_total,
      parsed_bytes_total := 0 }

/-- The outer `'tcp_read` loop of the two connection handlers (src/lib.rs
lines 351-417 / 469-549), driven by an explicit byte `stream` (the bytes
the peer will deliver, in order) and a read `schedule` (for each
`socket.read` call, the number of bytes the transport offers; the actual
read is capped by the free buffer space after the carried-over bytes and
by the bytes remaining in the stream, and a zero-byte read `continue`s).
Before parsing, the handler rebases the parser cursors with
`rebase_cursors`.  Returns the outcome, the frames emitted, the final
connection state and the unconsumed stream. -/
def conn_run (ck : GenericKeyVal K) (cv : GenericKeyVal V) :
    List Nat → List Nat → ConnState K V →
    List (ProtOpCode × KeyValObj K V) →
    RunOutcome × List (ProtOpCode × KeyValObj K V) × ConnState K V × List Nat
  | [], stream, st, frames => (.running, frames, st, stream)
  | s :: rest, stream, st, frames =>
    let r := min s (min (TCP_READ_BUFF_SIZE - st.left_over) stream.length)
    if r = 0 then conn_run ck cv rest stream st frames
    else
      let buff1 := st.buff.take st.left_over ++ stream.take r ++
        st.buff.drop (st.left_over + r)
      let tcp := r + st.left_over
      let p1 := rebase_cursors st
      match inner_loop ck cv (tcp + 1) p1 buff1 tcp st.op st.obj frames with
      | .more p b o ob lo fr =>
        conn_run ck cv rest (stream.drop r)
          { parser := p, buff := b, op := o, obj := ob, left_over := lo } fr
      | .halt out fr =>
        (out, fr,
          { parser := p1, buff := buff1, op := st.op, obj := st.obj,
            left_over := st.left_over },
          stream.drop r)

/-- `CacheDb::push` (src/lib.rs lines 433-436): the store is a growable
sequence and push appends at the end. -/
def CacheDb.push (store : List (KeyValObj K V)) (obj : KeyValObj K V) :
    List (KeyValObj K V) :=
  store ++ [obj]

/-- `CacheDb::get` (src/lib.rs lines 439-446): linear scan from the front,
returning a clone of the first entry whose key matches. -/
def CacheDb.get [DecidableEq K] (store : List (KeyValObj K V)) (key : K) :
    Option (KeyValObj K V) :=
  store.find? (fun o => o.key = key)

/-- One client pending-request slot (`KeyValObjSync` together with its
`KeyValObjSyncLocked` payload, src/lib.rs lines 43-51): the key/value
pair, the found/not-found flag (field `1` of `KeyValObjSyncLocked`) and
the `pulling` flag. -/
structure SlotState (K V : Type) where
  key : K
  val : V
  not_found : Bool
  pulling : Bool
  deriving DecidableEq

/-- The action of `cache_client_handler` on one slot when a
`PullReplyOp` or `PullReplyNotFoundOp` frame is dispatched (src/lib.rs
lines 394-404): on a key match, store the parsed value, set the
not-found flag only when the opcode is `PullReplyNotFoundOp`, and clear
`pulling`. -/
def dispatch_slot [DecidableEq K] (op : ProtOpCode) (parsed : KeyValObj K V)
    (s : SlotState K V) : SlotState K V :=
  if s.key = parsed.key then
    { key := s.key, val := parsed.val,
      not_found := if op = ProtOpCode.PullReplyNotFoundOp then true else s.not_found,
      pulling := false }
  else s

/-- The result a blocking `CacheClient::pull` computes after its
condition-variable wait returns (src/lib.rs lines 268-280): a timeout
yields `NetworkTimeOutError`; otherwise, if the slot's not-found flag is
set, `KeyNotFound`; otherwise a clone of the slot's key/value pair. -/
def pull_wakeup_result (s : SlotState K V) (timed_out : Bool) :
    Except CacheDbError (KeyValObj K V) :=
  if timed_out then .error .NetworkTimeOutError
  else if s.not_found then .error .KeyNotFound
  else .ok { key := s.key, val := s.val }

/-- The result `CacheClient::pull_async`'s spawned closure computes after
its condition-variable wait returns (src/lib.rs lines 313-320): a
timeout yields `NetworkTimeOutError`; otherwise a clone of the slot's
key/value pair — the not-found flag is never consulted. -/
def pull_async_wakeup_result (s : SlotState K V) (timed_out : Bool) :
    Except CacheDbError (KeyValObj K V) :=
  if timed_out then .error .NetworkTimeOutError
  else .ok { key := s.key, val := s.val }

/-- The byte sequence `CacheClient::terminate_conn` writes on the socket
(src/lib.rs lines 330-335). -/
def term_seq : List Nat := [4, 0, 0, 0, 0]

/-- The key/value object carried by a `ParseResult` that emitted a frame. -/
def emittedObj : ParseResult K V → Option (KeyValObj K V)
  | .emitted _ _ _ obj => some obj
  | _ => none

/-- The fresh per-connection state at the byte-string instantiation. -/
def connInit : ConnState (List Nat) (List Nat) := ConnState.init [] []

/-- A well-formed frame whose key segment (1025 bytes) exceeds
`TCP_READ_BUFF_SIZE`: opcode PULL, `key_size = 1025` (big-endian
`[4, 1]`), 1025 key bytes, `val_size = 0`. -/
def bigFrame : List Nat := 1 :: 4 :: 1 :: (List.replicate 1025 7 ++ [0, 0])

/-- The connection state reached after feeding `bigFrame` in reads of
1024 and then 6 bytes: the whole 1024-byte buffer is carried over
(`left_over = 1024`), the parser is stuck inside the KEY segment needing
`to_parse_bytes_total = 1025 > 1024` bytes. -/
def wedgedState : ConnState (List Nat) (List Nat) :=
  { parser := { parsed_protocoll_segment := 2, parsed_bytes_total := 0,
                to_parse_bytes_total := 1025, key_size := 1025,
                val_size := 0 },
    buff := List.replicate 1024 7, op := ProtOpCode.PullOp,
    obj := { key := [], val := [] }, left_over := 1024 }

/-- The connection state after the first 1024-byte read of `bigFrame`:
the three header bytes are consumed, the parser waits inside the KEY
segment, and 1021 bytes are carried over. -/
def midState : ConnState (List Nat) (List Nat) :=
  { parser := { parsed_protocoll_segment := 2, parsed_bytes_total := 3,
                to_parse_bytes_total := 1028, key_size := 1025,
                val_size := 0 },
    buff := List.replicate 1024 7, op := ProtOpCode.PullOp,
    obj := { key := [], val := [] }, left_over := 1021 }

/-! ## Theorems -/

/-! ### Stepping lemmas for the parser loop and the connection read loop

Each lemma captures one arm of `parse_loop` / `stall_arm` /
`inner_loop` / `conn_run` with its guard conditions as hypotheses, so
that concrete executions can be traced step by step. -/

theorem parse_arm0_ok (ck : GenericKeyVal K) (cv : GenericKeyVal V)
    (fuel : Nat) (st : CacheProtocol) (buff : List Nat) (tcp : Nat)
    (op : ProtOpCode) (obj : KeyValObj K V) (opc : ProtOpCode)
    (hseg : st.parsed_protocoll_segment = 0)
    (hg : st.parsed_bytes_total + 1 ≤ tcp)
    (hidx : st.parsed_bytes_total < buff.length)
    (hdec : u8_to_prot_op_code (buff.getD st.parsed_bytes_total 0) = some opc) :
    parse_loop ck cv (fuel + 1) st buff tcp op obj =
      parse_loop ck cv fuel
        { parsed_protocoll_segment := 1,
          parsed_bytes_total := st.to_parse_bytes_total + 1,
          to_parse_bytes_total := st.to_parse_bytes_total + 1 + 2,
          key_size := st.key_size, val_size := st.val_size }
        buff tcp opc obj := by
  have hdec2 : u8_to_prot_op_code buff[st.parsed_bytes_total] = some opc := by
    rwa [List.getD_eq_getElem buff 0 hidx] at hdec
  simp [parse_loop, hseg, hg, hidx, hdec2]

theorem parse_arm0_err (ck : GenericKeyVal K) (cv : GenericKeyVal V)
    (fuel : Nat) (st : CacheProtocol) (buff : List Nat) (tcp : Nat)
    (op : ProtOpCode) (obj : KeyValObj K V)
    (hseg : st.parsed_protocoll_segment = 0)
    (hg : st.parsed_bytes_total + 1 ≤ tcp)
    (hidx : st.parsed_bytes_total < buff.length)
    (hdec : u8_to_prot_op_code (buff.getD st.parsed_bytes_total 0) = none) :
    parse_loop ck cv (fuel + 1) st buff tcp op obj = .errored .ParsingErr := by
  have hdec2 : u8_to_prot_op_code buff[st.parsed_bytes_total] = none := by
    rwa [List.getD_eq_getElem buff 0 hidx] at hdec
  simp [parse_loop, hseg, hg, hidx, hdec2]

theorem parse_arm1_ok (ck : GenericKeyVal K) (cv : GenericKeyVal V)
    (fuel : Nat) (st : CacheProtocol) (buff : List Nat) (tcp : Nat)
    (op : ProtOpCode) (obj : KeyValObj K V)
    (hseg : st.parsed_protocoll_segment = 1)
    (hg : st.to_parse_bytes_total ≤ tcp)
    (hc1 : st.parsed_bytes_total ≤ st.to_parse_bytes_total)
    (hc2 : st.to_parse_bytes_total ≤ buff.length)
    (hc3 : st.to_parse_bytes_total - st.parsed_bytes_total = 2) :
    parse_loop ck cv (fuel + 1) st buff tcp op obj =
      parse_loop ck cv fuel
        { parsed_protocoll_segment := 2,
          parsed_bytes_total := st.to_parse_bytes_total,
          to_parse_bytes_total := st.to_parse_bytes_total +
            u16_from_be_bytes (buff.getD st.parsed_bytes_total 0)
              (buff.getD (st.parsed_bytes_total + 1) 0),
          key_size := u16_from_be_bytes (buff.getD st.parsed_bytes_total 0)
            (buff.getD (st.parsed_bytes_total + 1) 0),
          val_size := st.val_size }
        buff tcp op obj := by
  simp [parse_loop, hseg, hg, hc1, hc2, hc3]

theorem parse_arm2_skip (ck : GenericKeyVal K) (cv : GenericKeyVal V)
    (fuel : Nat) (st : CacheProtocol) (buff : List Nat) (tcp : Nat)
    (op : ProtOpCode) (obj : KeyValObj K V)
    (hseg : st.parsed_protocoll_segment = 2)
    (hg : st.to_parse_bytes_total ≤ tcp)
    (hc1 : st.parsed_bytes_total ≤ st.to_parse_bytes_total)
    (hc2 : st.to_parse_bytes_total ≤ buff.length)
    (hks : st.key_size = 0) :
    parse_loop ck cv (fuel + 1) st buff tcp op obj =
      parse_loop ck cv fuel
        { parsed_protocoll_segment := 3,
          parsed_bytes_total := st.to_parse_bytes_total,
          to_parse_bytes_total := st.to_parse_bytes_total + 2,
          key_size := st.key_size, val_size := st.val_size }
        buff tcp op obj := by
  simp [parse_loop, hseg, hg, hc1, hc2, hks]

theorem parse_arm2_ok (ck : GenericKeyVal K) (cv : GenericKeyVal V)
    (fuel : Nat) (st : CacheProtocol) (buff : List Nat) (tcp : Nat)
    (op : ProtOpCode) (obj : KeyValObj K V) (k : K)
    (hseg : st.parsed_protocoll_segment = 2)
    (hg : st.to_parse_bytes_total ≤ tcp)
    (hc1 : st.parsed_bytes_total ≤ st.to_parse_bytes_total)
    (hc2 : st.to_parse_bytes_total ≤ buff.length)
    (hks : st.key_size ≠ 0)
    (hdec : ck.from_bytes ((buff.drop st.parsed_bytes_total).take
      (st.to_parse_bytes_total - st.parsed_bytes_total)) = .ok k) :
    parse_loop ck cv (fuel + 1) st buff tcp op obj =
      parse_loop ck cv fuel
        { parsed_protocoll_segment := 3,
          parsed_bytes_total := st.to_parse_bytes_total,
          to_parse_bytes_total := st.to_parse_bytes_total + 2,
          key_size := st.key_size, val_size := st.val_size }
        buff tcp op { key := k, val := obj.val } := by
  simp [parse_loop, hseg, hg, hc1, hc2, hks, hdec]

theorem parse_arm3_ok (ck : GenericKeyVal K) (cv : GenericKeyVal V)
    (fuel : Nat) (st : CacheProtocol) (buff : List Nat) (tcp : Nat)
    (op : ProtOpCode) (obj : KeyValObj K V)
    (hseg : st.parsed_protocoll_segment = 3)
    (hg : st.to_parse_bytes_total ≤ tcp)
    (hc1 : st.parsed_bytes_total ≤ st.to_parse_bytes_total)
    (hc2 : st.to_parse_bytes_total ≤ buff.length)
    (hc3 : st.to_parse_bytes_total - st.parsed_bytes_total = 2) :
    parse_loop ck cv (fuel + 1) st buff tcp op obj =
      parse_loop ck cv fuel
        { parsed_protocoll_segment := 4,
          parsed_bytes_total := st.to_parse_bytes_total,
          to_parse_bytes_total := st.to_parse_bytes_total +
            u16_from_be_bytes (buff.getD st.parsed_bytes_total 0)
              (buff.getD (st.parsed_bytes_total + 1) 0),
          key_size := st.key_size,
          val_size := u16_from_be_bytes (buff.getD st.parsed_bytes_total 0)
            (buff.getD (st.parsed_bytes_total + 1) 0) }
        buff tcp op obj := by
  simp [parse_loop, hseg, hg, hc1, hc2, hc3]

theorem parse_arm4_skip (ck : GenericKeyVal K) (cv : GenericKeyVal V)
    (fuel : Nat) (st : CacheProtocol) (buff : List Nat) (tcp : Nat)
    (op : ProtOpCode) (obj : KeyValObj K V)
    (hseg : st.parsed_protocoll_segment = 4)
    (hg : st.to_parse_bytes_total ≤ tcp)
    (hc1 : st.parsed_bytes_total ≤ st.to_parse_bytes_total)
    (hc2 : st.to_parse_bytes_total ≤ buff.length)
    (hvs : st.val_size = 0) :
    parse_loop ck cv (fuel + 1) st buff tcp op obj =
      .emitted { parsed_protocoll_segment := 0,
                 parsed_bytes_total := st.to_parse_bytes_total,
                 to_parse_bytes_total := st.to_parse_bytes_total,
                 key_size := st.key_size, val_size := st.val_size }
        buff op obj := by
  simp [parse_loop, hseg, hg, hc1, hc2, hvs]

theorem parse_arm4_ok (ck : GenericKeyVal K) (cv : GenericKeyVal V)
    (fuel : Nat) (st : CacheProtocol) (buff : List Nat) (tcp : Nat)
    (op : ProtOpCode) (obj : KeyValObj K V) (v : V)
    (hseg : st.parsed_protocoll_segment = 4)
    (hg : st.to_parse_bytes_total ≤ tcp)
    (hc1 : st.parsed_bytes_total ≤ st.to_parse_bytes_total)
    (hc2 : st.to_parse_bytes_total ≤ buff.length)
    (hvs : st.val_size ≠ 0)
    (hdec : cv.from_bytes ((buff.drop st.parsed_bytes_total).take
      (st.to_parse_bytes_total - st.parsed_bytes_total)) = .ok v) :
    parse_loop ck cv (fuel + 1) st buff tcp op obj =
      .emitted { parsed_protocoll_segment := 0,
                 parsed_bytes_total := st.to_parse_bytes_total,
                 to_parse_bytes_total := st.to_parse_bytes_total,
                 key_size := st.key_size, val_size := st.val_size }
        buff op { key := obj.key, val := v } := by
  simp [parse_loop, hseg, hg, hc1, hc2, hvs, hdec]

theorem parse_arm0_stall (ck : GenericKeyVal K) (cv : GenericKeyVal V)
    (fuel : Nat) (st : CacheProtocol) (buff : List Nat) (tcp : Nat)
    (op : ProtOpCode) (obj : KeyValObj K V)
    (hseg : st.parsed_protocoll_segment = 0)
    (hg : ¬(st.parsed_bytes_total + 1 ≤ tcp)) :
    parse_loop ck cv (fuel + 1) st buff tcp op obj =
      stall_arm st buff tcp op obj := by
  simp [parse_loop, hseg, hg]

theorem parse_arm1_stall (ck : GenericKeyVal K) (cv : GenericKeyVal V)
    (fuel : Nat) (st : CacheProtocol) (buff : List Nat) (tcp : Nat)
    (op : ProtOpCode) (obj : KeyValObj K V)
    (hseg : st.parsed_protocoll_segment = 1)
    (hg : ¬(st.to_parse_bytes_total ≤ tcp)) :
    parse_loop ck cv (fuel + 1) st buff tcp op obj =
      stall_arm st buff tcp op obj := by
  simp [parse_loop, hseg, hg]

theorem parse_arm2_stall (ck : GenericKeyVal K) (cv : GenericKeyVal V)
    (fuel : Nat) (st : CacheProtocol) (buff : List Nat) (tcp : Nat)
    (op : ProtOpCode) (obj : KeyValObj K V)
    (hseg : st.parsed_protocoll_segment = 2)
    (hg : ¬(st.to_parse_bytes_total ≤ tcp)) :
    parse_loop ck cv (fuel + 1) st buff tcp op obj =
      stall_arm st buff tcp op obj := by
  simp [parse_loop, hseg, hg]

theorem stall_arm_zero (st : CacheProtocol) (buff : List Nat) (tcp : Nat)
    (op : ProtOpCode) (obj : KeyValObj K V)
    (h : st.parsed_bytes_total = tcp) :
    stall_arm st buff tcp op obj = .stalled st buff op obj 0 := by
  simp [stall_arm, h]

theorem stall_arm_carry (st : CacheProtocol) (buff : List Nat) (tcp : Nat)
    (op : ProtOpCode) (obj : KeyValObj K V)
    (h1 : st.parsed_bytes_total ≤ tcp)
    (h2 : tcp - st.parsed_bytes_total ≠ 0)
    (h3 : st.parsed_bytes_total ≤ buff.length)
    (h4 : buff.length - st.parsed_bytes_total = tcp - st.parsed_bytes_total) :
    stall_arm st buff tcp op obj =
      .stalled st (buff.drop st.parsed_bytes_total ++
        buff.drop (tcp - st.parsed_bytes_total)) op obj
        (tcp - st.parsed_bytes_total) := by
  simp [stall_arm, h1, h2, h3, h4]

theorem stall_arm_panic (st : CacheProtocol) (buff : List Nat) (tcp : Nat)
    (op : ProtOpCode) (obj : KeyValObj K V)
    (h1 : st.parsed_bytes_total ≤ tcp)
    (h2 : tcp - st.parsed_bytes_total ≠ 0)
    (h3 : ¬(st.parsed_bytes_total ≤ buff.length ∧
      buff.length - st.parsed_bytes_total = tcp - st.parsed_bytes_total)) :
    stall_arm st buff tcp op obj = .panicked := by
  simp only [stall_arm, if_pos h1, if_neg h2, if_neg h3]

theorem inner_loop_of_stalled (ck : GenericKeyVal K) (cv : GenericKeyVal V)
    (fuel : Nat) (parser : CacheProtocol) (buff : List Nat) (tcp : Nat)
    (op : ProtOpCode) (obj : KeyValObj K V)
    (frames : List (ProtOpCode × KeyValObj K V)) (st : CacheProtocol)
    (b : List Nat) (o : ProtOpCode) (ob : KeyValObj K V) (lo : Nat)
    (h : parse_buff ck cv parser buff tcp op obj = .stalled st b o ob lo) :
    inner_loop ck cv (fuel + 1) parser buff tcp op obj frames =
      .more st b o ob lo frames := by
  simp [inner_loop, h]

theorem inner_loop_of_errored (ck : GenericKeyVal K) (cv : GenericKeyVal V)
    (fuel : Nat) (parser : CacheProtocol) (buff : List Nat) (tcp : Nat)
    (op : ProtOpCode) (obj : KeyValObj K V)
    (frames : List (ProtOpCode × KeyValObj K V)) (e : CacheDbError)
    (h : parse_buff ck cv parser buff tcp op obj = .errored e) :
    inner_loop ck cv (fuel + 1) parser buff tcp op obj frames =
      .halt (.fatal e) frames := by
  simp [inner_loop, h]

theorem inner_loop_of_panicked (ck : GenericKeyVal K) (cv : GenericKeyVal V)
    (fuel : Nat) (parser : CacheProtocol) (buff : List Nat) (tcp : Nat)
    (op : ProtOpCode) (obj : KeyValObj K V)
    (frames : List (ProtOpCode × KeyValObj K V))
    (h : parse_buff ck cv parser buff tcp op obj = .panicked) :
    inner_loop ck cv (fuel + 1) parser buff tcp op obj frames =
      .halt .panicked frames := by
  simp [inner_loop, h]

theorem inner_loop_of_emitted (ck : GenericKeyVal K) (cv : GenericKeyVal V)
    (fuel : Nat) (parser : CacheProtocol) (buff : List Nat) (tcp : Nat)
    (op : ProtOpCode) (obj : KeyValObj K V)
    (frames : List (ProtOpCode × KeyValObj K V)) (st : CacheProtocol)
    (b : List Nat) (o : ProtOpCode) (ob : KeyValObj K V)
    (h : parse_buff ck cv parser buff tcp op obj = .emitted st b o ob)
    (ho : o ≠ ProtOpCode.TerminateConn) :
    inner_loop ck cv (fuel + 1) parser buff tcp op obj frames =
      inner_loop ck cv fuel st b tcp o ob (frames ++ [(o, ob)]) := by
  simp [inner_loop, h, ho]

theorem conn_run_zero_read (ck : GenericKeyVal K) (cv : GenericKeyVal V)
    (s : Nat) (rest stream : List Nat) (st : ConnState K V)
    (frames : List (ProtOpCode × KeyValObj K V))
    (h : min s (min (TCP_READ_BUFF_SIZE - st.left_over) stream.length) = 0) :
    conn_run ck cv (s :: rest) stream st frames =
      conn_run ck cv rest stream st frames := by
  simp [conn_run, h]

theorem conn_run_read_more (ck : GenericKeyVal K) (cv : GenericKeyVal V)
    (s : Nat) (rest stream : List Nat) (st : ConnState K V)
    (frames : List (ProtOpCode × KeyValObj K V)) (r : Nat)
    (p : CacheProtocol) (b : List Nat) (o : ProtOpCode) (ob : KeyValObj K V)
    (lo : Nat) (fr : List (ProtOpCode × KeyValObj K V))
    (hr : min s (min (TCP_READ_BUFF_SIZE - st.left_over) stream.length) = r)
    (h0 : r ≠ 0)
    (hinner : inner_loop ck cv (r + st.left_over + 1) (rebase_cursors st)
      (st.buff.take st.left_over ++ stream.take r ++
        st.buff.drop (st.left_over + r))
      (r + st.left_over) st.op st.obj frames = .more p b o ob lo fr) :
    conn_run ck cv (s :: rest) stream st frames =
      conn_run ck cv rest (stream.drop r)
        { parser := p, buff := b, op := o, obj := ob, left_over := lo } fr := by
  subst hr
  rw [conn_run]
  rw [if_neg h0]
  simp only [hinner]

theorem conn_run_read_halt (ck : GenericKeyVal K) (cv : GenericKeyVal V)
    (s : Nat) (rest stream : List Nat) (st : ConnState K V)
    (frames : List (ProtOpCode × KeyValObj K V)) (r : Nat)
    (out : RunOutcome) (fr : List (ProtOpCode × KeyValObj K V))
    (hr : min s (min (TCP_READ_BUFF_SIZE - st.left_over) stream.length) = r)
    (h0 : r ≠ 0)
    (hinner : inner_loop ck cv (r + st.left_over + 1) (rebase_cursors st)
      (st.buff.take st.left_over ++ stream.take r ++
        st.buff.drop (st.left_over + r))
      (r + st.left_over) st.op st.obj frames = .halt out fr) :
    conn_run ck cv (s :: rest) stream st frames =
      (out, fr,
        { parser := rebase_cursors st,
          buff := st.buff.take st.left_over ++ stream.take r ++
            st.buff.drop (st.left_over + r),
          op := st.op, obj := st.obj, left_over := st.left_over },
        stream.drop r) := by
  subst hr
  rw [conn_run]
  rw [if_neg h0]
  simp only [hinner]

theorem parse_bigFrame_read1 :
    parse_buff bytesKV bytesKV
      { parsed_protocoll_segment := 0, parsed_bytes_total := 0,
        to_parse_bytes_total := 0, key_size := 0, val_size := 0 }
      (1 :: 4 :: 1 :: List.replicate 1021 7) 1024 ProtOpCode.PullOp
      { key := [], val := [] } =
    .stalled { parsed_protocoll_segment := 2, parsed_bytes_total := 3,
               to_parse_bytes_total := 1028, key_size := 1025, val_size := 0 }
      (List.replicate 1021 7 ++ List.replicate 3 7) ProtOpCode.PullOp
      { key := [], val := [] } 1021 := by
  have hB : (1 :: 4 :: 1 :: List.replicate 1021 (7:Nat)).length = 1024 := by
    simp
  unfold parse_buff
  rw [parse_arm0_ok bytesKV bytesKV 5 ⟨0, 0, 0, 0, 0⟩
    (1 :: 4 :: 1 :: List.replicate 1021 7) 1024 ProtOpCode.PullOp ⟨[], []⟩
    ProtOpCode.PullOp rfl (by norm_num) (by simp) rfl]
  norm_num
  rw [parse_arm1_ok bytesKV bytesKV 4 ⟨1, 1, 3, 0, 0⟩
    (1 :: 4 :: 1 :: List.replicate 1021 7) 1024 ProtOpCode.PullOp ⟨[], []⟩
    rfl (by norm_num) (by norm_num) (by simp) rfl]
  norm_num [u16_from_be_bytes]
  rw [parse_arm2_stall bytesKV bytesKV 3 ⟨2, 3, 1028, 1025, 0⟩
    (1 :: 4 :: 1 :: List.replicate 1021 7) 1024 ProtOpCode.PullOp ⟨[], []⟩
    rfl (by norm_num)]
  rw [stall_arm_carry ⟨2, 3, 1028, 1025, 0⟩
    (1 :: 4 :: 1 :: List.replicate 1021 7) 1024 ProtOpCode.PullOp ⟨[], []⟩
    (by norm_num) (by norm_num) (by simp) (by rw [hB])]
  norm_num [List.drop_succ_cons, List.drop_replicate]

theorem parse_bigFrame_read2 :
    parse_buff bytesKV bytesKV
      { parsed_protocoll_segment := 2, parsed_bytes_total := 0,
        to_parse_bytes_total := 1025, key_size := 1025, val_size := 0 }
      (List.replicate 1024 7) 1024 ProtOpCode.PullOp
      { key := [], val := [] } =
    .stalled { parsed_protocoll_segment := 2, parsed_bytes_total := 0,
               to_parse_bytes_total := 1025, key_size := 1025, val_size := 0 }
      (List.replicate 1024 7) ProtOpCode.PullOp
      { key := [], val := [] } 1024 := by
  unfold parse_buff
  rw [parse_arm2_stall bytesKV bytesKV 5 ⟨2, 0, 1025, 1025, 0⟩
    (List.replicate 1024 7) 1024 ProtOpCode.PullOp ⟨[], []⟩
    rfl (by norm_num)]
  rw [stall_arm_carry ⟨2, 0, 1025, 1025, 0⟩
    (List.replicate 1024 7) 1024 ProtOpCode.PullOp ⟨[], []⟩
    (by norm_num) (by norm_num) (by simp) (by simp)]
  norm_num [List.drop_replicate]

theorem conn_run_bigFrame_step1 (rest : List Nat)
    (fr : List (ProtOpCode × KeyValObj (List Nat) (List Nat))) :
    conn_run bytesKV bytesKV (1024 :: rest) bigFrame connInit fr =
      conn_run bytesKV bytesKV rest [7, 7, 7, 7, 0, 0] midState fr := by
  have htake : bigFrame.take 1024 = 1 :: 4 :: 1 :: List.replicate 1021 7 := by
    simp only [bigFrame, List.take_succ_cons]
    rw [List.take_append_of_le_length (by simp), List.take_replicate]
    norm_num
  have hdrop : bigFrame.drop 1024 = [7, 7, 7, 7, 0, 0] := by
    simp only [bigFrame, List.drop_succ_cons]
    rw [List.drop_append_of_le_length (by simp), List.drop_replicate]
    norm_num
    decide
  have e2 : connInit.buff.take connInit.left_over ++ bigFrame.take 1024 ++
      connInit.buff.drop (connInit.left_over + 1024) =
      1 :: 4 :: 1 :: List.replicate 1021 7 := by
    norm_num [connInit, ConnState.init, TCP_READ_BUFF_SIZE, htake,
      List.drop_replicate]
  have hinner : inner_loop bytesKV bytesKV (1024 + connInit.left_over + 1)
      (rebase_cursors connInit)
      (connInit.buff.take connInit.left_over ++ bigFrame.take 1024 ++
        connInit.buff.drop (connInit.left_over + 1024))
      (1024 + connInit.left_over) connInit.op connInit.obj fr =
      .more { parsed_protocoll_segment := 2, parsed_bytes_total := 3,
              to_parse_bytes_total := 1028, key_size := 1025, val_size := 0 }
        (List.replicate 1021 7 ++ List.replicate 3 7) ProtOpCode.PullOp
        { key := [], val := [] } 1021 fr := by
    rw [e2, show rebase_cursors connInit =
      (⟨0, 0, 0, 0, 0⟩ : CacheProtocol) from rfl]
    norm_num [connInit, ConnState.init]
    exact inner_loop_of_stalled bytesKV bytesKV 1024 _ _ _ _ _ fr _ _ _ _ _
      parse_bigFrame_read1
  have h := conn_run_read_more bytesKV bytesKV 1024 rest bigFrame connInit fr
    1024 ⟨2, 3, 1028, 1025, 0⟩
    (List.replicate 1021 7 ++ List.replicate 3 7) ProtOpCode.PullOp ⟨[], []⟩
    1021 fr
    (by norm_num [connInit, ConnState.init, TCP_READ_BUFF_SIZE, bigFrame])
    (by norm_num) hinner
  rw [h, hdrop,
    show List.replicate 1021 (7:Nat) ++ List.replicate 3 7 =
      List.replicate 1024 7 from by rw [← List.replicate_add]]
  rfl

theorem conn_run_bigFrame_step2 (rest : List Nat)
    (fr : List (ProtOpCode × KeyValObj (List Nat) (List Nat))) :
    conn_run bytesKV bytesKV (6 :: rest) [7, 7, 7, 7, 0, 0] midState fr =
      conn_run bytesKV bytesKV rest [7, 0, 0] wedgedState fr := by
  have e2 : midState.buff.take midState.left_over ++
      ([7, 7, 7, 7, 0, 0] : List Nat).take 3 ++
      midState.buff.drop (midState.left_over + 3) =
      List.replicate 1024 7 := by
    norm_num [midState, List.take_replicate, List.drop_replicate]
    rw [show (7:Nat) :: [7, 7] = List.replicate 3 7 from rfl,
      ← List.replicate_add]
  have hinner : inner_loop bytesKV bytesKV (3 + midState.left_over + 1)
      (rebase_cursors midState)
      (midState.buff.take midState.left_over ++
        ([7, 7, 7, 7, 0, 0] : List Nat).take 3 ++
        midState.buff.drop (midState.left_over + 3))
      (3 + midState.left_over) midState.op midState.obj fr =
      .more { parsed_protocoll_segment := 2, parsed_bytes_total := 0,
              to_parse_bytes_total := 1025, key_size := 1025, val_size := 0 }
        (List.replicate 1024 7) ProtOpCode.PullOp
        { key := [], val := [] } 1024 fr := by
    rw [e2, show rebase_cursors midState =
      (⟨2, 0, 1025, 1025, 0⟩ : CacheProtocol) from rfl]
    norm_num [midState]
    exact inner_loop_of_stalled bytesKV bytesKV 1024 _ _ _ _ _ fr _ _ _ _ _
      parse_bigFrame_read2
  have h := conn_run_read_more bytesKV bytesKV 6 rest [7, 7, 7, 7, 0, 0]
    midState fr 3 ⟨2, 0, 1025, 1025, 0⟩ (List.replicate 1024 7)
    ProtOpCode.PullOp ⟨[], []⟩ 1024 fr
    (by norm_num [midState, TCP_READ_BUFF_SIZE])
    (by norm_num) hinner
  rw [h]
  rfl


theorem parse_pf_read1 :
    parse_buff bytesKV bytesKV
      { parsed_protocoll_segment := 0, parsed_bytes_total := 0,
        to_parse_bytes_total := 0, key_size := 0, val_size := 0 }
      (1 :: 0 :: List.replicate 1022 0) 2 ProtOpCode.PullOp
      { key := [], val := [] } = .panicked := by
  unfold parse_buff
  rw [parse_arm0_ok bytesKV bytesKV 5 ⟨0, 0, 0, 0, 0⟩
    (1 :: 0 :: List.replicate 1022 0) 2 ProtOpCode.PullOp ⟨[], []⟩
    ProtOpCode.PullOp rfl (by norm_num) (by simp) rfl]
  norm_num
  rw [parse_arm1_stall bytesKV bytesKV 4 ⟨1, 1, 3, 0, 0⟩
    (1 :: 0 :: List.replicate 1022 0) 2 ProtOpCode.PullOp ⟨[], []⟩
    rfl (by norm_num)]
  rw [stall_arm_panic ⟨1, 1, 3, 0, 0⟩
    (1 :: 0 :: List.replicate 1022 0) 2 ProtOpCode.PullOp ⟨[], []⟩
    (by norm_num) (by norm_num) (by simp)]

theorem conn_run_pf_split :
    conn_run bytesKV bytesKV [2, 6] [1, 0, 3, 97, 115, 100, 0, 0]
      connInit [] =
      (RunOutcome.panicked, [],
        { parser := rebase_cursors connInit,
          buff := connInit.buff.take connInit.left_over ++
            ([1, 0, 3, 97, 115, 100, 0, 0] : List Nat).take 2 ++
            connInit.buff.drop (connInit.left_over + 2),
          op := connInit.op, obj := connInit.obj,
          left_over := connInit.left_over },
        ([1, 0, 3, 97, 115, 100, 0, 0] : List Nat).drop 2) := by
  have e2 : connInit.buff.take connInit.left_over ++
      ([1, 0, 3, 97, 115, 100, 0, 0] : List Nat).take 2 ++
      connInit.buff.drop (connInit.left_over + 2) =
      1 :: 0 :: List.replicate 1022 0 := by
    norm_num [connInit, ConnState.init, TCP_READ_BUFF_SIZE,
      List.drop_replicate]
  have hinner : inner_loop bytesKV bytesKV (2 + connInit.left_over + 1)
      (rebase_cursors connInit)
      (connInit.buff.take connInit.left_over ++
        ([1, 0, 3, 97, 115, 100, 0, 0] : List Nat).take 2 ++
        connInit.buff.drop (connInit.left_over + 2))
      (2 + connInit.left_over) connInit.op connInit.obj [] =
      .halt .panicked [] := by
    rw [e2, show rebase_cursors connInit =
      (⟨0, 0, 0, 0, 0⟩ : CacheProtocol) from rfl]
    norm_num [connInit, ConnState.init]
    exact inner_loop_of_panicked bytesKV bytesKV 2 _ _ _ _ _ []
      parse_pf_read1
  exact conn_run_read_halt bytesKV bytesKV 2 [6]
    [1, 0, 3, 97, 115, 100, 0, 0] connInit [] 2 .panicked []
    (by norm_num [connInit, ConnState.init, TCP_READ_BUFF_SIZE])
    (by norm_num) hinner

theorem parse_pf_whole :
    parse_buff bytesKV bytesKV
      { parsed_protocoll_segment := 0, parsed_bytes_total := 0,
        to_parse_bytes_total := 0, key_size := 0, val_size := 0 }
      (1 :: 0 :: 3 :: 97 :: 115 :: 100 :: 0 :: 0 :: List.replicate 1016 0)
      8 ProtOpCode.PullOp { key := [], val := [] } =
    .emitted { parsed_protocoll_segment := 0, parsed_bytes_total := 8,
               to_parse_bytes_total := 8, key_size := 3, val_size := 0 }
      (1 :: 0 :: 3 :: 97 :: 115 :: 100 :: 0 :: 0 :: List.replicate 1016 0)
      ProtOpCode.PullOp { key := [97, 115, 100], val := [] } := by
  unfold parse_buff
  rw [parse_arm0_ok bytesKV bytesKV 5 ⟨0, 0, 0, 0, 0⟩
    (1 :: 0 :: 3 :: 97 :: 115 :: 100 :: 0 :: 0 :: List.replicate 1016 0)
    8 ProtOpCode.PullOp ⟨[], []⟩ ProtOpCode.PullOp rfl (by norm_num)
    (by simp) rfl]
  norm_num
  rw [parse_arm1_ok bytesKV bytesKV 4 ⟨1, 1, 3, 0, 0⟩
    (1 :: 0 :: 3 :: 97 :: 115 :: 100 :: 0 :: 0 :: List.replicate 1016 0)
    8 ProtOpCode.PullOp ⟨[], []⟩ rfl (by norm_num) (by norm_num) (by simp)
    rfl]
  norm_num [u16_from_be_bytes]
  rw [parse_arm2_ok bytesKV bytesKV 3 ⟨2, 3, 6, 3, 0⟩
    (1 :: 0 :: 3 :: 97 :: 115 :: 100 :: 0 :: 0 :: List.replicate 1016 0)
    8 ProtOpCode.PullOp ⟨[], []⟩ [97, 115, 100] rfl (by norm_num)
    (by norm_num) (by simp) (by norm_num) (by norm_num [bytesKV])]
  norm_num
  rw [parse_arm3_ok bytesKV bytesKV 2 ⟨3, 6, 8, 3, 0⟩
    (1 :: 0 :: 3 :: 97 :: 115 :: 100 :: 0 :: 0 :: List.replicate 1016 0)
    8 ProtOpCode.PullOp ⟨[97, 115, 100], []⟩ rfl (by norm_num) (by norm_num)
    (by simp) rfl]
  norm_num [u16_from_be_bytes]
  rw [parse_arm4_skip bytesKV bytesKV 1 ⟨4, 8, 8, 3, 0⟩
    (1 :: 0 :: 3 :: 97 :: 115 :: 100 :: 0 :: 0 :: List.replicate 1016 0)
    8 ProtOpCode.PullOp ⟨[97, 115, 100], []⟩ rfl (by norm_num) (by norm_num)
    (by simp) rfl]

theorem parse_pf_tail :
    parse_buff bytesKV bytesKV
      { parsed_protocoll_segment := 0, parsed_bytes_total := 8,
        to_parse_bytes_total := 8, key_size := 3, val_size := 0 }
      (1 :: 0 :: 3 :: 97 :: 115 :: 100 :: 0 :: 0 :: List.replicate 1016 0)
      8 ProtOpCode.PullOp { key := [97, 115, 100], val := [] } =
    .stalled { parsed_protocoll_segment := 0, parsed_bytes_total := 8,
               to_parse_bytes_total := 8, key_size := 3, val_size := 0 }
      (1 :: 0 :: 3 :: 97 :: 115 :: 100 :: 0 :: 0 :: List.replicate 1016 0)
      ProtOpCode.PullOp { key := [97, 115, 100], val := [] } 0 := by
  unfold parse_buff
  rw [parse_arm0_stall bytesKV bytesKV 5 ⟨0, 8, 8, 3, 0⟩
    (1 :: 0 :: 3 :: 97 :: 115 :: 100 :: 0 :: 0 :: List.replicate 1016 0)
    8 ProtOpCode.PullOp ⟨[97, 115, 100], []⟩ rfl (by norm_num)]
  rw [stall_arm_zero ⟨0, 8, 8, 3, 0⟩
    (1 :: 0 :: 3 :: 97 :: 115 :: 100 :: 0 :: 0 :: List.replicate 1016 0)
    8 ProtOpCode.PullOp ⟨[97, 115, 100], []⟩ rfl]

theorem conn_run_pf_whole :
    conn_run bytesKV bytesKV [8] [1, 0, 3, 97, 115, 100, 0, 0]
      connInit [] =
      (RunOutcome.running,
        ([(ProtOpCode.PullOp, { key := [97, 115, 100], val := [] })] :
          List (ProtOpCode × KeyValObj (List Nat) (List Nat))),
        { parser := { parsed_protocoll_segment := 0, parsed_bytes_total := 8,
                      to_parse_bytes_total := 8, key_size := 3,
                      val_size := 0 },
          buff := 1 :: 0 :: 3 :: 97 :: 115 :: 100 :: 0 :: 0 ::
            List.replicate 1016 0,
          op := ProtOpCode.PullOp, obj := { key := [97, 115, 100], val := [] },
          left_over := 0 }, []) := by
  have e2 : connInit.buff.take connInit.left_over ++
      ([1, 0, 3, 97, 115, 100, 0, 0] : List Nat).take 8 ++
      connInit.buff.drop (connInit.left_over + 8) =
      1 :: 0 :: 3 :: 97 :: 115 :: 100 :: 0 :: 0 :: List.replicate 1016 0 := by
    norm_num [connInit, ConnState.init, TCP_READ_BUFF_SIZE,
      List.drop_replicate]
  have hinner : inner_loop bytesKV bytesKV (8 + connInit.left_over + 1)
      (rebase_cursors connInit)
      (connInit.buff.take connInit.left_over ++
        ([1, 0, 3, 97, 115, 100, 0, 0] : List Nat).take 8 ++
        connInit.buff.drop (connInit.left_over + 8))
      (8 + connInit.left_over) connInit.op connInit.obj [] =
      .more { parsed_protocoll_segment := 0, parsed_bytes_total := 8,
              to_parse_bytes_total := 8, key_size := 3, val_size := 0 }
        (1 :: 0 :: 3 :: 97 :: 115 :: 100 :: 0 :: 0 :: List.replicate 1016 0)
        ProtOpCode.PullOp { key := [97, 115, 100], val := [] } 0
        [(ProtOpCode.PullOp, { key := [97, 115, 100], val := [] })] := by
    rw [e2, show rebase_cursors connInit =
      (⟨0, 0, 0, 0, 0⟩ : CacheProtocol) from rfl]
    norm_num [connInit, ConnState.init]
    rw [inner_loop_of_emitted bytesKV bytesKV 8 ⟨0, 0, 0, 0, 0⟩
      (1 :: 0 :: 3 :: 97 :: 115 :: 100 :: 0 :: 0 :: List.replicate 1016 0)
      8 ProtOpCode.PullOp ⟨[], []⟩ [] ⟨0, 8, 8, 3, 0⟩
      (1 :: 0 :: 3 :: 97 :: 115 :: 100 :: 0 :: 0 :: List.replicate 1016 0)
      ProtOpCode.PullOp ⟨[97, 115, 100], []⟩ parse_pf_whole (by decide)]
    norm_num
    exact inner_loop_of_stalled bytesKV bytesKV 7 _ _ _ _ _ _ _ _ _ _ _
      parse_pf_tail
  have h := conn_run_read_more bytesKV bytesKV 8 []
    [1, 0, 3, 97, 115, 100, 0, 0] connInit [] 8
    ⟨0, 8, 8, 3, 0⟩
    (1 :: 0 :: 3 :: 97 :: 115 :: 100 :: 0 :: 0 :: List.replicate 1016 0)
    ProtOpCode.PullOp ⟨[97, 115, 100], []⟩ 0
    [(ProtOpCode.PullOp, { key := [97, 115, 100], val := [] })]
    (by norm_num [connInit, ConnState.init, TCP_READ_BUFF_SIZE])
    (by norm_num) hinner
  rw [h]
  rfl

/-- C2: the claim says a frame whose key segment exceeds the 1024-byte
read buffer is still eventually emitted when fed across successive
reads.  It is not: for the PULL frame with a 1025-byte key (`bigFrame`),
after reads of 1024 and 6 bytes the parser is stalled inside the KEY
segment needing 1025 contiguous bytes (`wedgedState`), the entire buffer
is carried over, and every further read — whatever the schedule —
returns zero bytes into the empty buffer remainder, so the connection
loops forever and no frame is ever emitted. -/
theorem claim_c2_thm : ∀ sched : List Nat,
    conn_run bytesKV bytesKV (1024 :: 6 :: sched) bigFrame connInit [] =
      (RunOutcome.running, [], wedgedState, [7, 0, 0]) := by
  intro sched
  rw [conn_run_bigFrame_step1, conn_run_bigFrame_step2]
  induction sched with
  | nil => rfl
  | cons s rest ih =>
    rw [conn_run_zero_read bytesKV bytesKV s rest [7, 0, 0] wedgedState []
      (by norm_num [wedgedState, TCP_READ_BUFF_SIZE]), ih]

/-- C7: the claim says the frames emitted by the parser are independent
of the chosen split points.  Delivering the 8-byte encoded PULL frame
for key "asd" in chunks of sizes 2 and 6 makes the first read end inside
the KEY_SIZE segment; the carry code then `copy_from_slice`s the 1023
bytes from the consumed position to the end of the array onto the 1-byte
destination `buff[..1]` and panics, emitting nothing — while the same
frame delivered in a single read is emitted. -/
theorem claim_c7_thm :
    (conn_run bytesKV bytesKV [2, 6] [1, 0, 3, 97, 115, 100, 0, 0]
      connInit []).1 = RunOutcome.panicked ∧
    (conn_run bytesKV bytesKV [2, 6] [1, 0, 3, 97, 115, 100, 0, 0]
      connInit []).2.1 = [] ∧
    (conn_run bytesKV bytesKV [8] [1, 0, 3, 97, 115, 100, 0, 0]
      connInit []).2.1 =
      [(ProtOpCode.PullOp, { key := [97, 115, 100], val := [] })] := by
  refine ⟨?_, ?_, ?_⟩
  · rw [conn_run_pf_split]
  · rw [conn_run_pf_split]
  · rw [conn_run_pf_whole]


/-- C1, counterexample: the claim says `assemble_buff` emits `val_size = 0`
and no value bytes for `TERMINATE` (length `1 + 2 + key.size() + 2`), but
the code special-cases only `PullOp`: for `TerminateConn` with empty key
and value `[7]` the buffer is `[5, 0, 0, 0, 1, 7]` of length 6, not 5. -/
theorem claim_c1_counterexample :
    assemble_buff bytesKV bytesKV ProtOpCode.TerminateConn
      { key := [], val := [7] } = .ok [5, 0, 0, 0, 1, 7] ∧
    ([5, 0, 0, 0, 1, 7] : List Nat).length ≠
      1 + 2 + ([] : List Nat).length + 2 :=
  ⟨rfl, by decide⟩

/-- C1, amended: for every opcode and every key/value object whose codec
sizes agree with the encoded byte lengths, `assemble_buff` succeeds and
the buffer has length `1 + 2 + key_size + 2 + val_size`, except that the
value size and value bytes are suppressed (two zero bytes, no payload)
exactly for the `PullOp` opcode — `PullReplyNotFoundOp` and
`TerminateConn` do serialise the supplied value. -/
theorem claim_c1 (ck : GenericKeyVal K) (cv : GenericKeyVal V)
    (op : ProtOpCode) (obj : KeyValObj K V) (ks vs : Nat)
    (hk : ck.get_size obj.key = .ok ks)
    (hkb : (ck.get_bytes obj.key).length = ks)
    (hv : cv.get_size obj.val = .ok vs)
    (hvb : (cv.get_bytes obj.val).length = vs) :
    ∃ buf, assemble_buff ck cv op obj = .ok buf ∧
      buf.length = 1 + 2 + ks + 2 +
        (if op = ProtOpCode.PullOp then 0 else vs) ∧
      (op = ProtOpCode.PullOp →
        buf = prot_op_code_to_u8 op ::
          (u16_to_be_bytes ks ++ ck.get_bytes obj.key ++ [0, 0])) := by
  by_cases hop : op = ProtOpCode.PullOp
  · refine ⟨prot_op_code_to_u8 op ::
      (u16_to_be_bytes ks ++ ck.get_bytes obj.key ++ [0, 0]), ?_, ?_,
      fun _ => rfl⟩
    · simp [assemble_buff, hk, hop]
    · simp [hop, u16_to_be_bytes, hkb]
      omega
  · refine ⟨prot_op_code_to_u8 op ::
      (u16_to_be_bytes ks ++ ck.get_bytes obj.key ++
        (u16_to_be_bytes vs ++ cv.get_bytes obj.val)), ?_, ?_,
      fun hcon => absurd hcon hop⟩
    · simp [assemble_buff, hk, hv, hop]
    · simp [hop, u16_to_be_bytes, hkb, hvb]
      omega

/-- C1, witness for the amended theorem at a concrete input. -/
theorem claim_c1_witness :
    ∃ buf, assemble_buff bytesKV bytesKV ProtOpCode.TerminateConn
        { key := [3], val := [7] } = .ok buf ∧
      buf.length = 1 + 2 + 1 + 2 +
        (if ProtOpCode.TerminateConn = ProtOpCode.PullOp then 0 else 1) ∧
      (ProtOpCode.TerminateConn = ProtOpCode.PullOp →
        buf = prot_op_code_to_u8 ProtOpCode.TerminateConn ::
          (u16_to_be_bytes 1 ++ bytesKV.get_bytes [3] ++ [0, 0])) :=
  claim_c1 bytesKV bytesKV ProtOpCode.TerminateConn
    { key := [3], val := [7] } 1 1 rfl rfl rfl rfl

/-- C3: the claim (and spec) say `terminate_conn` writes opcode 5
(`05 00 00 00 00`), matching `ProtOpCode::TerminateConn = 5`, but the
code writes the literal `[4, 0, 0, 0, 0]` — on the wire that is a
`PULL_REPLY_NOT_FOUND` header, not a TERMINATE frame.  The code
contradicts its own opcode enum. -/
theorem claim_c3_thm :
    term_seq = prot_op_code_to_u8 ProtOpCode.PullReplyNotFoundOp ::
      [0, 0, 0, 0] ∧
    term_seq ≠ prot_op_code_to_u8 ProtOpCode.TerminateConn ::
      [0, 0, 0, 0] := by
  decide

/-- C4, counterexample: the claim says dispatching a `PullReplyOp` frame
for a slot with `not_found = true` resets the flag to `false`; the code
never writes `false` to the flag, so it stays `true`. -/
theorem claim_c4_counterexample :
    (dispatch_slot ProtOpCode.PullReplyOp
      ({ key := [1], val := [9] } : KeyValObj (List Nat) (List Nat))
      { key := [1], val := [0], not_found := true, pulling := true }).not_found
      ≠ false := by
  decide

/-- C4, amended: dispatching a `PullReplyOp` frame stores the parsed
value and clears `pulling`, but leaves `not_found` unchanged (sticky):
a slot whose flag was set keeps reporting not-found. -/
theorem claim_c4 [DecidableEq K] (parsed : KeyValObj K V)
    (s : SlotState K V) (h : s.key = parsed.key) :
    dispatch_slot ProtOpCode.PullReplyOp parsed s =
      { key := s.key, val := parsed.val, not_found := s.not_found,
        pulling := false } := by
  simp [dispatch_slot, h]

/-- C4, witness for the amended theorem at a concrete input. -/
theorem claim_c4_witness :
    dispatch_slot ProtOpCode.PullReplyOp
      ({ key := [1], val := [9] } : KeyValObj (List Nat) (List Nat))
      { key := [1], val := [0], not_found := true, pulling := true } =
      { key := [1], val := [9], not_found := true, pulling := false } :=
  claim_c4 { key := [1], val := [9] }
    { key := [1], val := [0], not_found := true, pulling := true } rfl

/-- C5, counterexample: the claim says `pull_async` yields `KeyNotFound`
whenever the slot's not-found flag is set, like the blocking `pull`;
but the spawned closure never consults the flag and returns `Ok` with
the slot's (default) value. -/
theorem claim_c5_counterexample :
    pull_async_wakeup_result
      ({ key := [1], val := [], not_found := true, pulling := false } :
        SlotState (List Nat) (List Nat)) false ≠
    pull_wakeup_result
      { key := [1], val := [], not_found := true, pulling := false }
      false := by
  simp [pull_wakeup_result, pull_async_wakeup_result]

/-- C5, amended: `pull_async` computes the same post-wakeup result as the
blocking `pull` on timeout and on an ordinary reply, but only when the
slot's not-found flag is clear; when the flag is set, `pull_async`
returns `Ok` with the slot's value instead of `KeyNotFound`. -/
theorem claim_c5 (s : SlotState K V) (t : Bool) (h : s.not_found = false) :
    pull_async_wakeup_result s t = pull_wakeup_result s t := by
  simp [pull_async_wakeup_result, pull_wakeup_result, h]

/-- C5, witness for the amended theorem at a concrete input. -/
theorem claim_c5_witness :
    pull_async_wakeup_result
      ({ key := [1], val := [8], not_found := false, pulling := false } :
        SlotState (List Nat) (List Nat)) false =
    pull_wakeup_result
      { key := [1], val := [8], not_found := false, pulling := false }
      false :=
  claim_c5 { key := [1], val := [8], not_found := false, pulling := false }
    false rfl

/-- C6, counterexample: the claim quantifies over every store state, but
`CacheDb::get` scans from the front and `push` appends at the back, so
when the key is already present the pull after a push returns the old
value, not the pushed one. -/
theorem claim_c6_counterexample :
    CacheDb.get (CacheDb.push [{ key := [1], val := [2] }]
      { key := [1], val := [9] }) [1] = some { key := [1], val := [2] } ∧
    ({ key := [1], val := [2] } : KeyValObj (List Nat) (List Nat)) ≠
      { key := [1], val := [9] } := by
  constructor
  · rfl
  · decide

/-- C6, amended: provided the key is not already present in the store,
appending `(K, V)` with `push` and then looking `K` up with `get`
returns `(K, V)`. -/
theorem claim_c6 [DecidableEq K] (store : List (KeyValObj K V)) (k : K)
    (v : V) (h : ∀ o ∈ store, o.key ≠ k) :
    CacheDb.get (CacheDb.push store { key := k, val := v }) k =
      some { key := k, val := v } := by
  unfold CacheDb.get CacheDb.push
  induction store with
  | nil => simp
  | cons a as ih =>
    have ha : ¬(a.key = k) := h a (List.mem_cons_self a as)
    simp only [List.cons_append, List.find?]
    simp only [decide_eq_true_eq, ha, decide_False]
    exact ih (fun o ho => h o (List.mem_cons_of_mem a ho))

/-- C6, witness for the amended theorem at a concrete input. -/
theorem claim_c6_witness :
    CacheDb.get (CacheDb.push [{ key := [2], val := [5] }]
      { key := [1], val := [9] }) [1] =
      some ({ key := [1], val := [9] } : KeyValObj (List Nat) (List Nat)) :=
  claim_c6 [{ key := [2], val := [5] }] [1] [9] (by decide)



/-- Helper: a byte outside the five assigned opcodes decodes to `none`. -/
theorem u8_to_prot_op_code_none (b : Nat)
    (h : b ∉ ([1, 2, 3, 4, 5] : List Nat)) :
    u8_to_prot_op_code b = none := by
  simp only [List.mem_cons, List.not_mem_nil, or_false, not_or] at h
  obtain ⟨h1, h2, h3, h4, h5⟩ := h
  simp [u8_to_prot_op_code, h1, h2, h3, h4, h5]

/-- C8: when the parser sits at the OPCODE segment with the opcode byte
available and that byte is not one of 1..5, `parse_buff` returns
`ParsingErr` (neither a frame nor a stall), and a connection whose first
delivered byte is such an opcode halts its read loop fatally with
`ParsingErr`, emitting no frame. -/
theorem claim_c8 (ck : GenericKeyVal K) (cv : GenericKeyVal V)
    (st : CacheProtocol) (buff : List Nat) (tcp : Nat) (op : ProtOpCode)
    (obj : KeyValObj K V) (stream : List Nat) (dk : K) (dv : V)
    (h0 : st.parsed_protocoll_segment = 0)
    (h1 : st.parsed_bytes_total + 1 ≤ tcp)
    (h2 : st.parsed_bytes_total < buff.length)
    (h3 : buff.getD st.parsed_bytes_total 0 ∉ ([1, 2, 3, 4, 5] : List Nat))
    (h4 : stream ≠ []) (h5 : stream.length ≤ TCP_READ_BUFF_SIZE)
    (h6 : stream.getD 0 0 ∉ ([1, 2, 3, 4, 5] : List Nat)) :
    parse_buff ck cv st buff tcp op obj = .errored .ParsingErr ∧
    (conn_run ck cv [stream.length] stream (ConnState.init dk dv) []).1 =
      RunOutcome.fatal .ParsingErr ∧
    (conn_run ck cv [stream.length] stream (ConnState.init dk dv) []).2.1 =
      [] := by
  have hn : 0 < stream.length := List.length_pos.mpr h4
  refine ⟨?_, ?_⟩
  · unfold parse_buff
    exact parse_arm0_err ck cv 5 st buff tcp op obj h0 h1 h2
      (u8_to_prot_op_code_none _ h3)
  · have hpb : parse_buff ck cv (rebase_cursors (ConnState.init dk dv))
        ((ConnState.init dk dv).buff.take (ConnState.init dk dv).left_over ++
          stream.take stream.length ++
          (ConnState.init dk dv).buff.drop
            ((ConnState.init dk dv).left_over + stream.length))
        (stream.length + (ConnState.init dk dv).left_over)
        (ConnState.init dk dv).op (ConnState.init dk dv).obj =
        .errored .ParsingErr := by
      rw [show rebase_cursors (ConnState.init dk dv) =
        (⟨0, 0, 0, 0, 0⟩ : CacheProtocol) from rfl]
      unfold parse_buff
      refine parse_arm0_err ck cv 5 _ _ _ _ _ rfl ?_ ?_ ?_
      · simp [ConnState.init]
        omega
      · simp [ConnState.init, TCP_READ_BUFF_SIZE, List.take_length]
        omega
      · simp only [ConnState.init, List.take_length, List.take_zero,
          List.nil_append]
        rw [List.getD_append _ _ _ _ hn]
        exact u8_to_prot_op_code_none _ h6
    have hinner := inner_loop_of_errored ck cv
      (stream.length + (ConnState.init dk dv).left_over)
      (rebase_cursors (ConnState.init dk dv))
      ((ConnState.init dk dv).buff.take (ConnState.init dk dv).left_over ++
        stream.take stream.length ++
        (ConnState.init dk dv).buff.drop
          ((ConnState.init dk dv).left_over + stream.length))
      (stream.length + (ConnState.init dk dv).left_over)
      (ConnState.init dk dv).op (ConnState.init dk dv).obj []
      .ParsingErr hpb
    have h := conn_run_read_halt ck cv stream.length [] stream
      (ConnState.init dk dv) [] stream.length (.fatal .ParsingErr) []
      (by have h5x : stream.length ≤ 1024 := h5
          simp [ConnState.init, TCP_READ_BUFF_SIZE]
          omega)
      (by omega) hinner
    rw [h]
    exact ⟨rfl, rfl⟩

/-- C10: a frame whose `key_size` field is 0 leaves the out-parameter
object's key unchanged (so it carries the previously parsed frame's key,
or the `Default` value if none was parsed before), and a frame whose
`val_size` field is 0 likewise leaves the value unchanged: the parser
skips the decode entirely and never resets those fields between frames.
`vb`/`kb` are the value/key payloads of the two frame shapes. -/
theorem claim_c10 (b : Nat) (opc : ProtOpCode)
    (hb : u8_to_prot_op_code b = some opc)
    (vb kb : List Nat) (hv : vb.length < 65536) (hk : kb.length < 65536)
    (op0 : ProtOpCode) (obj : KeyValObj (List Nat) (List Nat)) :
    Option.map (fun o => o.key)
      (emittedObj (parse_buff bytesKV bytesKV CacheProtocol.new
        (b :: 0 :: 0 :: (u16_to_be_bytes vb.length ++ vb))
        (5 + vb.length) op0 obj)) = some obj.key ∧
    Option.map (fun o => o.val)
      (emittedObj (parse_buff bytesKV bytesKV CacheProtocol.new
        (b :: (u16_to_be_bytes kb.length ++ (kb ++ [0, 0])))
        (5 + kb.length) op0 obj)) = some obj.val := by
  constructor
  · -- key_size = 0 frame: obj.key never assigned
    have hlen : (b :: 0 :: 0 ::
        (u16_to_be_bytes vb.length ++ vb)).length = 5 + vb.length := by
      simp [u16_to_be_bytes]
      omega
    have h1 : parse_loop bytesKV bytesKV 6 ⟨0, 0, 0, 0, 0⟩
        (b :: 0 :: 0 :: (u16_to_be_bytes vb.length ++ vb))
        (5 + vb.length) op0 obj =
        parse_loop bytesKV bytesKV 5 ⟨1, 1, 3, 0, 0⟩
        (b :: 0 :: 0 :: (u16_to_be_bytes vb.length ++ vb))
        (5 + vb.length) opc obj :=
      parse_arm0_ok bytesKV bytesKV 5 ⟨0, 0, 0, 0, 0⟩ _ _ op0 obj opc rfl
        (by show (0:Nat) + 1 ≤ 5 + vb.length; omega)
        (by show (0:Nat) < (b :: 0 :: 0 ::
          (u16_to_be_bytes vb.length ++ vb)).length; rw [hlen]; omega)
        (by simpa using hb)
    have h2 : parse_loop bytesKV bytesKV 5 ⟨1, 1, 3, 0, 0⟩
        (b :: 0 :: 0 :: (u16_to_be_bytes vb.length ++ vb))
        (5 + vb.length) opc obj =
        parse_loop bytesKV bytesKV 4 ⟨2, 3, 3, 0, 0⟩
        (b :: 0 :: 0 :: (u16_to_be_bytes vb.length ++ vb))
        (5 + vb.length) opc obj :=
      parse_arm1_ok bytesKV bytesKV 4 ⟨1, 1, 3, 0, 0⟩ _ _ opc obj rfl
        (by show (3:Nat) ≤ 5 + vb.length; omega)
        (by show (1:Nat) ≤ 3; omega)
        (by show (3:Nat) ≤ (b :: 0 :: 0 ::
          (u16_to_be_bytes vb.length ++ vb)).length; rw [hlen]; omega)
        (by show (3:Nat) - 1 = 2; rfl)
    have h3 : parse_loop bytesKV bytesKV 4 ⟨2, 3, 3, 0, 0⟩
        (b :: 0 :: 0 :: (u16_to_be_bytes vb.length ++ vb))
        (5 + vb.length) opc obj =
        parse_loop bytesKV bytesKV 3 ⟨3, 3, 5, 0, 0⟩
        (b :: 0 :: 0 :: (u16_to_be_bytes vb.length ++ vb))
        (5 + vb.length) opc obj :=
      parse_arm2_skip bytesKV bytesKV 3 ⟨2, 3, 3, 0, 0⟩ _ _ opc obj rfl
        (by show (3:Nat) ≤ 5 + vb.length; omega)
        (by show (3:Nat) ≤ 3; omega)
        (by show (3:Nat) ≤ (b :: 0 :: 0 ::
          (u16_to_be_bytes vb.length ++ vb)).length; rw [hlen]; omega)
        rfl
    have hvs : u16_from_be_bytes
        ((b :: 0 :: 0 :: (u16_to_be_bytes vb.length ++ vb)).getD 3 0)
        ((b :: 0 :: 0 :: (u16_to_be_bytes vb.length ++ vb)).getD 4 0) =
        vb.length := by
      simp [u16_to_be_bytes, u16_from_be_bytes, List.getD_cons_succ,
        List.getD_cons_zero, List.cons_append]
      omega
    have h4 : parse_loop bytesKV bytesKV 3 ⟨3, 3, 5, 0, 0⟩
        (b :: 0 :: 0 :: (u16_to_be_bytes vb.length ++ vb))
        (5 + vb.length) opc obj =
        parse_loop bytesKV bytesKV 2 ⟨4, 5, 5 + vb.length, 0, vb.length⟩
        (b :: 0 :: 0 :: (u16_to_be_bytes vb.length ++ vb))
        (5 + vb.length) opc obj := by
      have h := parse_arm3_ok bytesKV bytesKV 2 ⟨3, 3, 5, 0, 0⟩
        (b :: 0 :: 0 :: (u16_to_be_bytes vb.length ++ vb))
        (5 + vb.length) opc obj rfl
        (by show (5:Nat) ≤ 5 + vb.length; omega)
        (by show (3:Nat) ≤ 5; omega)
        (by show (5:Nat) ≤ (b :: 0 :: 0 ::
          (u16_to_be_bytes vb.length ++ vb)).length; rw [hlen]; omega)
        (by show (5:Nat) - 3 = 2; rfl)
      rw [h]
      rw [show ((⟨3, 3, 5, 0, 0⟩ : CacheProtocol)).to_parse_bytes_total +
        u16_from_be_bytes
          ((b :: 0 :: 0 :: (u16_to_be_bytes vb.length ++ vb)).getD
            ((⟨3, 3, 5, 0, 0⟩ : CacheProtocol)).parsed_bytes_total 0)
          ((b :: 0 :: 0 :: (u16_to_be_bytes vb.length ++ vb)).getD
            (((⟨3, 3, 5, 0, 0⟩ : CacheProtocol)).parsed_bytes_total + 1) 0) =
        5 + vb.length from by simpa using hvs]
      rw [show u16_from_be_bytes
          ((b :: 0 :: 0 :: (u16_to_be_bytes vb.length ++ vb)).getD
            ((⟨3, 3, 5, 0, 0⟩ : CacheProtocol)).parsed_bytes_total 0)
          ((b :: 0 :: 0 :: (u16_to_be_bytes vb.length ++ vb)).getD
            (((⟨3, 3, 5, 0, 0⟩ : CacheProtocol)).parsed_bytes_total + 1) 0) =
        vb.length from by simpa using hvs]
    by_cases hz : vb.length = 0
    · have h5 : parse_loop bytesKV bytesKV 2
          ⟨4, 5, 5 + vb.length, 0, vb.length⟩
          (b :: 0 :: 0 :: (u16_to_be_bytes vb.length ++ vb))
          (5 + vb.length) opc obj =
          .emitted ⟨0, 5 + vb.length, 5 + vb.length, 0, vb.length⟩
          (b :: 0 :: 0 :: (u16_to_be_bytes vb.length ++ vb)) opc obj :=
        parse_arm4_skip bytesKV bytesKV 1 _ _ _ opc obj rfl
          (by show 5 + vb.length ≤ 5 + vb.length; omega)
          (by show (5:Nat) ≤ 5 + vb.length; omega)
          (by show 5 + vb.length ≤ (b :: 0 :: 0 ::
            (u16_to_be_bytes vb.length ++ vb)).length; rw [hlen])
          hz
      unfold parse_buff CacheProtocol.new
      rw [h1, h2, h3, h4, h5]
      simp [emittedObj]
    · have h5 : parse_loop bytesKV bytesKV 2
          ⟨4, 5, 5 + vb.length, 0, vb.length⟩
          (b :: 0 :: 0 :: (u16_to_be_bytes vb.length ++ vb))
          (5 + vb.length) opc obj =
          .emitted ⟨0, 5 + vb.length, 5 + vb.length, 0, vb.length⟩
          (b :: 0 :: 0 :: (u16_to_be_bytes vb.length ++ vb)) opc
          { key := obj.key,
            val := (((b :: 0 :: 0 ::
              (u16_to_be_bytes vb.length ++ vb)).drop 5).take
              (5 + vb.length - 5)) } :=
        parse_arm4_ok bytesKV bytesKV 1 _ _ _ opc obj _ rfl
          (by show 5 + vb.length ≤ 5 + vb.length; omega)
          (by show (5:Nat) ≤ 5 + vb.length; omega)
          (by show 5 + vb.length ≤ (b :: 0 :: 0 ::
            (u16_to_be_bytes vb.length ++ vb)).length; rw [hlen])
          (by show vb.length ≠ 0; exact hz)
          rfl
      unfold parse_buff CacheProtocol.new
      rw [h1, h2, h3, h4, h5]
      simp [emittedObj]
  · -- val_size = 0 frame: obj.val never assigned
    have hlen : (b :: (u16_to_be_bytes kb.length ++
        (kb ++ [0, 0]))).length = 5 + kb.length := by
      simp [u16_to_be_bytes]
      omega
    have hks : u16_from_be_bytes
        ((b :: (u16_to_be_bytes kb.length ++ (kb ++ [0, 0]))).getD 1 0)
        ((b :: (u16_to_be_bytes kb.length ++ (kb ++ [0, 0]))).getD 2 0) =
        kb.length := by
      simp [u16_to_be_bytes, u16_from_be_bytes, List.getD_cons_succ,
        List.getD_cons_zero, List.cons_append]
      omega
    have h1 : parse_loop bytesKV bytesKV 6 ⟨0, 0, 0, 0, 0⟩
        (b :: (u16_to_be_bytes kb.length ++ (kb ++ [0, 0])))
        (5 + kb.length) op0 obj =
        parse_loop bytesKV bytesKV 5 ⟨1, 1, 3, 0, 0⟩
        (b :: (u16_to_be_bytes kb.length ++ (kb ++ [0, 0])))
        (5 + kb.length) opc obj :=
      parse_arm0_ok bytesKV bytesKV 5 ⟨0, 0, 0, 0, 0⟩ _ _ op0 obj opc rfl
        (by show (0:Nat) + 1 ≤ 5 + kb.length; omega)
        (by show (0:Nat) < (b :: (u16_to_be_bytes kb.length ++
          (kb ++ [0, 0]))).length; rw [hlen]; omega)
        (by simpa using hb)
    have h2 : parse_loop bytesKV bytesKV 5 ⟨1, 1, 3, 0, 0⟩
        (b :: (u16_to_be_bytes kb.length ++ (kb ++ [0, 0])))
        (5 + kb.length) opc obj =
        parse_loop bytesKV bytesKV 4 ⟨2, 3, 3 + kb.length, kb.length, 0⟩
        (b :: (u16_to_be_bytes kb.length ++ (kb ++ [0, 0])))
        (5 + kb.length) opc obj := by
      have h := parse_arm1_ok bytesKV bytesKV 4 ⟨1, 1, 3, 0, 0⟩
        (b :: (u16_to_be_bytes kb.length ++ (kb ++ [0, 0])))
        (5 + kb.length) opc obj rfl
        (by show (3:Nat) ≤ 5 + kb.length; omega)
        (by show (1:Nat) ≤ 3; omega)
        (by show (3:Nat) ≤ (b :: (u16_to_be_bytes kb.length ++
          (kb ++ [0, 0]))).length; rw [hlen]; omega)
        (by show (3:Nat) - 1 = 2; rfl)
      rw [h]
      rw [show ((⟨1, 1, 3, 0, 0⟩ : CacheProtocol)).to_parse_bytes_total +
        u16_from_be_bytes
          ((b :: (u16_to_be_bytes kb.length ++ (kb ++ [0, 0]))).getD
            ((⟨1, 1, 3, 0, 0⟩ : CacheProtocol)).parsed_bytes_total 0)
          ((b :: (u16_to_be_bytes kb.length ++ (kb ++ [0, 0]))).getD
            (((⟨1, 1, 3, 0, 0⟩ : CacheProtocol)).parsed_bytes_total + 1) 0) =
        3 + kb.length from by simpa using hks]
      rw [show u16_from_be_bytes
          ((b :: (u16_to_be_bytes kb.length ++ (kb ++ [0, 0]))).getD
            ((⟨1, 1, 3, 0, 0⟩ : CacheProtocol)).parsed_bytes_total 0)
          ((b :: (u16_to_be_bytes kb.length ++ (kb ++ [0, 0]))).getD
            (((⟨1, 1, 3, 0, 0⟩ : CacheProtocol)).parsed_bytes_total + 1) 0) =
        kb.length from by simpa using hks]
    have e1 : (b :: (u16_to_be_bytes kb.length ++ (kb ++ [0, 0]))).getD (3 + kb.length) 0 = 0 := by
      rw [show 3 + kb.length = (2 + kb.length) + 1 from by omega]
      rw [List.getD_cons_succ]
      rw [List.getD_append_right _ _ _ _ (by simp [u16_to_be_bytes])]
      rw [show 2 + kb.length - (u16_to_be_bytes kb.length).length =
        kb.length from by simp [u16_to_be_bytes]]
      rw [List.getD_append_right _ _ _ _ (le_refl _)]
      simp
    have e2 : (b :: (u16_to_be_bytes kb.length ++ (kb ++ [0, 0]))).getD (3 + kb.length + 1) 0 = 0 := by
      rw [show 3 + kb.length + 1 = (2 + kb.length + 1) + 1 from by omega]
      rw [List.getD_cons_succ]
      rw [List.getD_append_right _ _ _ _ (by simp [u16_to_be_bytes]; omega)]
      rw [show 2 + kb.length + 1 - (u16_to_be_bytes kb.length).length =
        kb.length + 1 from by simp [u16_to_be_bytes]; omega]
      rw [List.getD_append_right _ _ _ _ (by omega)]
      rw [show kb.length + 1 - kb.length = 1 from by omega]
      simp
    have hvs0 : u16_from_be_bytes ((b :: (u16_to_be_bytes kb.length ++ (kb ++ [0, 0]))).getD (3 + kb.length) 0)
        ((b :: (u16_to_be_bytes kb.length ++ (kb ++ [0, 0]))).getD (3 + kb.length + 1) 0) = 0 := by
      rw [e1, e2]
      rfl
    have h4 : ∀ obj2 : KeyValObj (List Nat) (List Nat),
        parse_loop bytesKV bytesKV 3
        ⟨3, 3 + kb.length, 3 + kb.length + 2, kb.length, 0⟩
        (b :: (u16_to_be_bytes kb.length ++ (kb ++ [0, 0]))) (5 + kb.length) opc obj2 =
        parse_loop bytesKV bytesKV 2
        ⟨4, 3 + kb.length + 2, 3 + kb.length + 2, kb.length, 0⟩
        (b :: (u16_to_be_bytes kb.length ++ (kb ++ [0, 0]))) (5 + kb.length) opc obj2 := by
      intro obj2
      have h := parse_arm3_ok bytesKV bytesKV 2
        ⟨3, 3 + kb.length, 3 + kb.length + 2, kb.length, 0⟩
        (b :: (u16_to_be_bytes kb.length ++ (kb ++ [0, 0]))) (5 + kb.length) opc obj2 rfl
        (by show 3 + kb.length + 2 ≤ 5 + kb.length; omega)
        (by show 3 + kb.length ≤ 3 + kb.length + 2; omega)
        (by show 3 + kb.length + 2 ≤ (b :: (u16_to_be_bytes kb.length ++ (kb ++ [0, 0]))).length; rw [hlen]; omega)
        (by show 3 + kb.length + 2 - (3 + kb.length) = 2; omega)
      rw [h]
      have hvs0p : u16_from_be_bytes
          ((b :: (u16_to_be_bytes kb.length ++ (kb ++ [0, 0]))).getD ((⟨3, 3 + kb.length, 3 + kb.length + 2, kb.length, 0⟩ :
            CacheProtocol)).parsed_bytes_total 0)
          ((b :: (u16_to_be_bytes kb.length ++ (kb ++ [0, 0]))).getD (((⟨3, 3 + kb.length, 3 + kb.length + 2, kb.length, 0⟩ :
            CacheProtocol)).parsed_bytes_total + 1) 0) = 0 := hvs0
      rw [hvs0p]
    have harm4 : ∀ obj2 : KeyValObj (List Nat) (List Nat),
        parse_loop bytesKV bytesKV 2
        ⟨4, 3 + kb.length + 2, 3 + kb.length + 2, kb.length, 0⟩
        (b :: (u16_to_be_bytes kb.length ++ (kb ++ [0, 0]))) (5 + kb.length) opc obj2 =
        .emitted ⟨0, 3 + kb.length + 2, 3 + kb.length + 2, kb.length, 0⟩
        (b :: (u16_to_be_bytes kb.length ++ (kb ++ [0, 0]))) opc obj2 := fun obj2 =>
      parse_arm4_skip bytesKV bytesKV 1 _ _ _ opc obj2 rfl
        (by show 3 + kb.length + 2 ≤ 5 + kb.length; omega)
        (by show 3 + kb.length + 2 ≤ 3 + kb.length + 2; omega)
        (by show 3 + kb.length + 2 ≤ (b :: (u16_to_be_bytes kb.length ++ (kb ++ [0, 0]))).length; rw [hlen]; omega)
        rfl
    by_cases hz : kb.length = 0
    · have h3 : parse_loop bytesKV bytesKV 4
          ⟨2, 3, 3 + kb.length, kb.length, 0⟩
          (b :: (u16_to_be_bytes kb.length ++ (kb ++ [0, 0]))) (5 + kb.length) opc obj =
          parse_loop bytesKV bytesKV 3
          ⟨3, 3 + kb.length, 3 + kb.length + 2, kb.length, 0⟩
          (b :: (u16_to_be_bytes kb.length ++ (kb ++ [0, 0]))) (5 + kb.length) opc obj :=
        parse_arm2_skip bytesKV bytesKV 3 _ _ _ opc obj rfl
          (by show 3 + kb.length ≤ 5 + kb.length; omega)
          (by show (3:Nat) ≤ 3 + kb.length; omega)
          (by show 3 + kb.length ≤ (b :: (u16_to_be_bytes kb.length ++ (kb ++ [0, 0]))).length; rw [hlen]; omega)
          hz
      unfold parse_buff CacheProtocol.new
      rw [h1, h2, h3, h4, harm4]
      simp [emittedObj]
    · have h3 : parse_loop bytesKV bytesKV 4
          ⟨2, 3, 3 + kb.length, kb.length, 0⟩
          (b :: (u16_to_be_bytes kb.length ++ (kb ++ [0, 0]))) (5 + kb.length) opc obj =
          parse_loop bytesKV bytesKV 3
          ⟨3, 3 + kb.length, 3 + kb.length + 2, kb.length, 0⟩
          (b :: (u16_to_be_bytes kb.length ++ (kb ++ [0, 0]))) (5 + kb.length) opc
          { key := ((b :: (u16_to_be_bytes kb.length ++ (kb ++ [0, 0]))).drop 3).take (3 + kb.length - 3),
            val := obj.val } :=
        parse_arm2_ok bytesKV bytesKV 3 _ _ _ opc obj _ rfl
          (by show 3 + kb.length ≤ 5 + kb.length; omega)
          (by show (3:Nat) ≤ 3 + kb.length; omega)
          (by show 3 + kb.length ≤ (b :: (u16_to_be_bytes kb.length ++ (kb ++ [0, 0]))).length; rw [hlen]; omega)
          (by show kb.length ≠ 0; exact hz)
          rfl
      unfold parse_buff CacheProtocol.new
      rw [h1, h2, h3, h4, harm4]
      simp [emittedObj]

/-- C8, witness at a concrete input. -/
theorem claim_c8_witness :
    parse_buff bytesKV bytesKV CacheProtocol.new [9] 1 ProtOpCode.PullOp
      ({ key := [], val := [] } : KeyValObj (List Nat) (List Nat)) =
      .errored .ParsingErr ∧
    (conn_run bytesKV bytesKV [([9] : List Nat).length] [9]
      (ConnState.init ([] : List Nat) ([] : List Nat)) []).1 =
      RunOutcome.fatal .ParsingErr ∧
    (conn_run bytesKV bytesKV [([9] : List Nat).length] [9]
      (ConnState.init ([] : List Nat) ([] : List Nat)) []).2.1 = [] :=
  claim_c8 bytesKV bytesKV CacheProtocol.new [9] 1 ProtOpCode.PullOp
    { key := [], val := [] } [9] [] [] rfl (by decide) (by decide)
    (by decide) (by decide) (by decide) (by decide)

/-- C10, witness at a concrete input. -/
theorem claim_c10_witness :
    Option.map (fun o => o.key)
      (emittedObj (parse_buff bytesKV bytesKV CacheProtocol.new
        (3 :: 0 :: 0 :: (u16_to_be_bytes ([9] : List Nat).length ++ [9]))
        (5 + ([9] : List Nat).length) ProtOpCode.PullOp
        ({ key := [5], val := [6] } : KeyValObj (List Nat) (List Nat)))) =
      some [5] ∧
    Option.map (fun o => o.val)
      (emittedObj (parse_buff bytesKV bytesKV CacheProtocol.new
        (3 :: (u16_to_be_bytes ([8] : List Nat).length ++ ([8] ++ [0, 0])))
        (5 + ([8] : List Nat).length) ProtOpCode.PullOp
        { key := [5], val := [6] })) = some [6] :=
  claim_c10 3 ProtOpCode.PullReplyOp rfl [9] [8] (by decide) (by decide)
    ProtOpCode.PullOp { key := [5], val := [6] }

end RustCacheDb
